import Mathlib

/-!
Shallow embedding of the credential lifecycle and authorization engine of
the ephemvpn API (src/api/main.py).

The AWS SSM parameter store is modelled as an association list from
parameter name to value; every SSM call of the source becomes a pure
operation on this list.  External effects (the WireGuard key generator,
the clock, HTTP lookups of public-IP services, the md5 hash of the client
id) are passed in as explicit parameters, so every function of the source
becomes a pure Lean function of the store plus those inputs.
-/

namespace EphemVpn

/-- Model of the Python `str.startswith` predicate, computed structurally
on the character lists of the strings. -/
def strStartsWith (s p : String) : Bool := List.isPrefixOf p.data s.data

/-- Model of the Python `str.endswith` predicate, computed structurally on
the character lists of the strings. -/
def strEndsWith (s suf : String) : Bool := List.isSuffixOf suf.data s.data

/-- Model of the Python `str.split(sep)` with a one-character separator,
computed structurally: split a character list at every occurrence of the
separator, keeping empty segments (so a leading separator yields a leading
empty segment, as in Python). -/
def splitOnChar (c : Char) : List Char → List (List Char)
  | [] => [[]]
  | x :: xs =>
    let r := splitOnChar c xs
    if x = c then [] :: r
    else (x :: r.headD []) :: r.tail

/-- Model of the Python `str.split(sep)` on strings. -/
def strSplitOn (s : String) (c : Char) : List String :=
  List.map String.mk (splitOnChar c s.data)

def isSpaceChar (c : Char) : Bool :=
  c == ' ' || c == '\t' || c == '\n' || c == '\r'

/-- Model of the Python `str.strip()`, dropping ASCII whitespace from both
ends of the character list. -/
def strTrim (s : String) : String :=
  String.mk (((s.data.dropWhile isSpaceChar).reverse.dropWhile isSpaceChar).reverse)

/-- The parameter store: a list of (name, value) bindings; lookup returns
the first binding for a name.  `putParam` keeps at most one binding per
name, matching SSM `put_parameter` with `Overwrite=True`. -/
def Store : Type := List (String × String)

instance : DecidableEq Store := by
  unfold Store
  infer_instance

/-- Model of `ssm.get_parameter`: `none` models the `ParameterNotFound`
exception. -/
def getParam (s : Store) (n : String) : Option String :=
  (List.find? (fun p => p.1 == n) s).map (fun p => p.2)

/-- Model of `ssm.put_parameter(..., Overwrite=True)`. -/
def putParam (s : Store) (n v : String) : Store :=
  (n, v) :: List.filter (fun p => p.1 != n) s

/-- Model of `ssm.delete_parameter`: `none` models the `ParameterNotFound`
exception (the store is unchanged in that case); `some` returns the store
with the binding removed. -/
def delParamRun (s : Store) (n : String) : Option Store :=
  match getParam s n with
  | none => none
  | some _ => some (List.filter (fun p => p.1 != n) s)

/-- Names of all parameters in the store, as returned by
`ssm.describe_parameters`. -/
def storeNames (s : Store) : List String :=
  List.map (fun p => p.1) s

/-- Default value of the SSM_PREFIX configuration variable in the source:
`os.getenv("SSM_PREFIX", "/ephem-vpn")`. -/
def ssmRoot : String := "/ephem-vpn"

/-- Parameter name f-string of the source for the master key. -/
def masterKeyName (pre : String) : String := pre ++ "/master-api-key"

/-- Parameter name f-string of the source for the server public key. -/
def serverPubKeyName (pre : String) : String := pre ++ "/wg/server-public-key"

/-- Parameter name of one field of a per-client record. -/
def userParamName (pre cid field : String) : String :=
  pre ++ "/users/" ++ cid ++ "/" ++ field

def privKeyName (pre cid : String) : String := userParamName pre cid ("wg-private-key")

def pubKeyName (pre cid : String) : String := userParamName pre cid ("wg-public-key")

def createdAtName (pre cid : String) : String := userParamName pre cid ("created-at")

def statusName (pre cid : String) : String := userParamName pre cid ("status")

/-- Names under the per-client namespace, as listed by the
`describe_parameters` call with the BeginsWith filter on `{pre}/users/`. -/
def userParamNames (pre : String) (s : Store) : List String :=
  List.filter (fun n => strStartsWith n (pre ++ "/users/")) (storeNames s)

/-- Result of an authorization predicate: `ok` models returning the
credential, `unauthorized` the HTTP 401, `notConfigured` the HTTP 500
raised when the master key parameter is missing. -/
inductive AuthResult where
  | ok (cred : String)
  | unauthorized
  | notConfigured
  deriving DecidableEq

/-- Embedding of `verify_master_api_key`: fetch the master key parameter;
if absent raise 500 (notConfigured); otherwise accept exactly the stored
value and reject everything else with 401. -/
def verify_master_api_key (pre : String) (s : Store) (cred : String) : AuthResult :=
  match getParam s (masterKeyName pre) with
  | none => .notConfigured
  | some mk => if cred == mk then .ok cred else .unauthorized

/-- Embedding of `verify_api_key`: first compare against the master key
(absence of the master parameter is swallowed); then list the parameters
under the users namespace, and for each one whose name ends with
`/api-key`, fetch it and compare; first match returns the credential;
otherwise 401. -/
def verify_api_key (pre : String) (s : Store) (cred : String) : AuthResult :=
  let masterMatch :=
    match getParam s (masterKeyName pre) with
    | some mk => cred == mk
    | none => false
  if masterMatch then .ok cred
  else if List.any (userParamNames pre s)
      (fun n => strEndsWith n ("/api-key") && (getParam s n == some cred)) then
    .ok cred
  else .unauthorized

/-- Outcome of the external `wg genkey` / `wg pubkey` subprocess calls in
`generate_wireguard_keys`: either both succeed, or the whole block raises
(`CalledProcessError` / `FileNotFoundError`). -/
inductive KeygenResult where
  | success (priv pub : String)
  | failure
  deriving DecidableEq

/-- Literal fallback value of the source for the private key. -/
def failedPrivate : String := "failed_to_generate_private_key"

/-- Literal fallback value of the source for the public key. -/
def failedPublic : String := "failed_to_generate_public_key"

/-- Embedding of `generate_wireguard_keys`: on subprocess failure the
source silently returns the two sentinel strings. -/
def generate_wireguard_keys : KeygenResult → String × String
  | .success priv pub => (priv, pub)
  | .failure => (failedPrivate, failedPublic)

/-- Embedding of `save_user_wireguard_keys`: four `put_parameter` calls in
the order private key, public key, created-at, status; `now` is the value
of the `datetime.utcnow().isoformat()` read made inside this function. -/
def save_user_wireguard_keys (pre cid priv pub now : String) (s : Store) : Store :=
  let s1 := putParam s (privKeyName pre cid) priv
  let s2 := putParam s1 (pubKeyName pre cid) pub
  let s3 := putParam s2 (createdAtName pre cid) now
  putParam s3 (statusName pre cid) ("active")

/-- Embedding of `load_user_wireguard_keys`: get the private key, then the
public key; `ParameterNotFound` on either yields `None`. -/
def load_user_wireguard_keys (pre cid : String) (s : Store) : Option (String × String) :=
  match getParam s (privKeyName pre cid) with
  | none => none
  | some priv =>
    match getParam s (pubKeyName pre cid) with
    | none => none
    | some pub => some (priv, pub)

/-- Embedding of `list_users`: list names under the users namespace, split
each on `/`, and collect the distinct segments at index 2 (guarded by
`len(name_parts) >= 3 and name_parts[2] != ""`); the Python `set` is
modelled as first-insertion-order deduplication. -/
def list_users (pre : String) (s : Store) : List String :=
  List.foldl (fun acc n =>
    let parts := strSplitOn n ('/')
    if 3 ≤ parts.length ∧ parts.getD 2 ("") ≠ "" then
      if List.contains acc (parts.getD 2 ("")) then acc
      else acc ++ [parts.getD 2 ("")]
    else acc) [] (userParamNames pre s)

/-- Embedding of `delete_user_wireguard_keys`: four `delete_parameter`
calls inside one `try`; the first `ParameterNotFound` aborts the remaining
deletes (the exception is swallowed, state mutated so far persists). -/
def delete_user_wireguard_keys (pre cid : String) (s : Store) : Store :=
  match delParamRun s (privKeyName pre cid) with
  | none => s
  | some s1 =>
    match delParamRun s1 (pubKeyName pre cid) with
    | none => s1
    | some s2 =>
      match delParamRun s2 (createdAtName pre cid) with
      | none => s2
      | some s3 =>
        match delParamRun s3 (statusName pre cid) with
        | none => s3
        | some s4 => s4

/-- Outcome of one external IP-lookup service in `get_public_ip`: a
request either raises / returns non-200 (`fail`), or returns a JSON body
with an `ip` field, an `origin` field (the httpbin format), or neither. -/
inductive SvcResult where
  | fail
  | okIp (ip : String)
  | okOrigin (origin : String)
  | okOther
  deriving DecidableEq

/-- The fixed list of external IP-detection service URLs of the source. -/
def ip_services : List String :=
  ["https://api.ipify.org?format=json", "https://httpbin.org/ip",
   "https://ipapi.co/json/", "https://api.myip.com"]

/-- Value extracted from one service response by the loop body of
`get_public_ip`: `data["ip"]` if present, else the first comma-separated
part of `data["origin"]`, stripped; otherwise the loop continues. -/
def svcExtract : SvcResult → Option String
  | .okIp ip => some ip
  | .okOrigin origin => some (strTrim ((strSplitOn origin (',')).headD ("")))
  | .fail => none
  | .okOther => none

/-- Environment and network inputs of `get_public_ip`,
`generate_wireguard_client_config` and `create_user_wireguard_config`:
the DNS_NAME and WG_LISTEN_PORT and VPN_PUBLIC_IP environment variables,
the per-URL outcome of the external IP services, the EC2 metadata probe
body (`none` models non-200 or an exception), and the value
`int(hashlib.md5(cid.encode()).hexdigest()[:16], 16)` of the external md5
library, as a function of the client id. -/
structure NetEnv where
  dnsName : Option String
  wgListenPort : String
  vpnPublicIp : Option String
  svc : String → SvcResult
  ec2Meta : Option String
  md5head : String → Nat

/-- Embedding of `get_public_ip`.  Method 1 (the ECS task-metadata block)
never produces a return value in the source — every path inside it falls
through — so it does not appear here.  Method 2 tries the external
services in order; Method 3 the EC2 metadata probe; Method 4 the
VPN_PUBLIC_IP environment variable (empty string is falsy in Python);
otherwise the empty string. -/
def get_public_ip (e : NetEnv) : String :=
  match List.findSome? (fun u => svcExtract (e.svc u)) ip_services with
  | some ip => ip
  | none =>
    match e.ec2Meta with
    | some body => strTrim body
    | none =>
      match e.vpnPublicIp with
      | some ip => if ip == "" then "" else ip
      | none => ""

/-- Server endpoint selection of `generate_wireguard_client_config`: the
DNS name with the listen port when DNS_NAME is set and non-empty (Python
truthiness), otherwise the discovered public IP with the port. -/
def server_endpoint (e : NetEnv) : String :=
  match e.dnsName with
  | some dns =>
    if dns == "" then get_public_ip e ++ ":" ++ e.wgListenPort
    else dns ++ ":" ++ e.wgListenPort
  | none => get_public_ip e ++ ":" ++ e.wgListenPort

/-- Deterministic tunnel-address computation of
`generate_wireguard_client_config`: `hash_decimal % 254 + 2` where
`hash_decimal` is the integer value of the first 16 hex chars of the md5
digest of the client id. -/
def ip_suffix (hashDecimal : Nat) : Nat := hashDecimal % 254 + 2

/-- Embedding of `generate_wireguard_client_config`: reads the server
public key (placeholder on any failure), resolves the endpoint, computes
the deterministic suffix, and renders the client config template. -/
def generate_wireguard_client_config (pre : String) (s : Store) (e : NetEnv)
    (cid priv _pub : String) : String :=
  let server_public_key :=
    match getParam s (serverPubKeyName pre) with
    | some v => strTrim v
    | none => "SERVER_PUBLIC_KEY_PLACEHOLDER"
  let endpoint := server_endpoint e
  let suffix := ip_suffix (e.md5head cid)
  "# WireGuard VPN Client Configuration for " ++ cid ++ "\n" ++
  "# Save this as " ++ cid ++ ".conf and use with: wg-quick up " ++ cid ++ ".conf\n" ++
  "\n[Interface]\nPrivateKey = " ++ priv ++
  "\nAddress = 10.0.0." ++ toString suffix ++ "/24" ++
  "\nDNS = 8.8.8.8, 8.8.4.4\n" ++
  "\n[Peer]\nPublicKey = " ++ server_public_key ++
  "\nEndpoint = " ++ endpoint ++
  "\nAllowedIPs = 0.0.0.0/0\nPersistentKeepalive = 25\n" ++
  "\n# To connect:\n# 1. Install WireGuard: https://www.wireguard.com/install/\n" ++
  "# 2. Save this config as " ++ cid ++ ".conf\n" ++
  "# 3. Run: wg-quick up " ++ cid ++ ".conf\n" ++
  "# 4. To disconnect: wg-quick down " ++ cid ++ ".conf\n"

/-- The response model `WireGuardConfig` of the source; `created_at` is
kept as the ISO string handed to the pydantic datetime field. -/
structure WireGuardConfig where
  private_key : String
  public_key : String
  client_id : String
  created_at : String
  status : String
  client_config : String
  deriving DecidableEq

/-- Per-client info dict returned by `get_user_info`. -/
structure UserInfo where
  client_id : String
  private_key : String
  public_key : String
  created_at : String
  status : String
  deriving DecidableEq

/-- Embedding of `get_user_info`: `None` if the key pair is missing;
otherwise read created-at then status, and on any failure of that block
substitute a fresh now / `active` default for both. -/
def get_user_info (pre cid nowDefault : String) (s : Store) : Option UserInfo :=
  match load_user_wireguard_keys pre cid s with
  | none => none
  | some pk =>
    match getParam s (createdAtName pre cid), getParam s (statusName pre cid) with
    | some c, some st =>
      some { client_id := cid, private_key := pk.1, public_key := pk.2,
             created_at := c, status := st }
    | _, _ =>
      some { client_id := cid, private_key := pk.1, public_key := pk.2,
             created_at := nowDefault, status := "active" }

/-- Outcome of the POST /users handler `create_user_wireguard_config`:
`alreadyExists` models the HTTP 409. -/
inductive CreateResult where
  | alreadyExists
  | created (resp : WireGuardConfig)
  deriving DecidableEq

/-- Embedding of the POST /users handler `create_user_wireguard_config`
(after the master-key dependency has passed): existence check via
`load_user_wireguard_keys`, keypair generation, the four saves, config
rendering against the updated store, and the response.  `tSave` is the
`datetime.utcnow()` read made inside `save_user_wireguard_keys`; `tResp`
is the separate `datetime.utcnow()` read made when building the
response. -/
def create_user_wireguard_config (pre : String) (e : NetEnv) (gen : KeygenResult)
    (tSave tResp cid : String) (s : Store) : Store × CreateResult :=
  match load_user_wireguard_keys pre cid s with
  | some _ => (s, .alreadyExists)
  | none =>
    let pk := generate_wireguard_keys gen
    let s1 := save_user_wireguard_keys pre cid pk.1 pk.2 tSave s
    let cfg := generate_wireguard_client_config pre s1 e cid pk.1 pk.2
    (s1, .created
      { private_key := pk.1, public_key := pk.2, client_id := cid,
        created_at := tResp, status := "active", client_config := cfg })

/-- Projection onto the response of a successful create (none for the 409
outcome). -/
def createdRespOf : CreateResult → Option WireGuardConfig
  | .created r => some r
  | .alreadyExists => none

/-- Outcome of the GET /users/id handler: `notFound` models the
HTTP 404. -/
inductive GetResult where
  | notFound
  | found (cfg : WireGuardConfig)
  deriving DecidableEq

/-- Embedding of the GET /users/id handler `get_user` (after the auth
dependency): 404 when `get_user_info` returns `None`, otherwise the
rendered response. -/
def get_user (pre : String) (e : NetEnv) (nowDefault cid : String) (s : Store) : GetResult :=
  match get_user_info pre cid nowDefault s with
  | none => .notFound
  | some info =>
    let cfg := generate_wireguard_client_config pre s e cid info.private_key info.public_key
    .found
      { private_key := info.private_key, public_key := info.public_key,
        client_id := cid, created_at := info.created_at, status := info.status,
        client_config := cfg }

/-- Outcome of the DELETE /users/id handler: `notFound` models the
HTTP 404. -/
inductive DeleteResult where
  | notFound
  | deleted
  deriving DecidableEq

/-- Embedding of the DELETE /users/id handler `delete_user` (after the
master-key dependency): 404 when the key pair is absent, otherwise the
four deletes. -/
def delete_user (pre cid : String) (s : Store) : Store × DeleteResult :=
  match load_user_wireguard_keys pre cid s with
  | none => (s, .notFound)
  | some _ => (delete_user_wireguard_keys pre cid s, .deleted)

/-! Concrete stores and environments used in counterexamples and
witnesses. -/

/-- Store holding a configured master key only. -/
def masterOnlyStore : Store := [(masterKeyName ssmRoot, "master-secret")]

/-- Store after creating client alice on top of a configured master key. -/
def aliceMasterStore : Store :=
  save_user_wireguard_keys ssmRoot ("alice") ("PRIV") ("PUB") ("2026-01-01T00:00:00")
    masterOnlyStore

/-- Store after creating client alice alone. -/
def aliceStore : Store :=
  save_user_wireguard_keys ssmRoot ("alice") ("PRIV") ("PUB") ("2026-01-01T00:00:00") []

/-- Partial record for client bob: the private key is absent while the
other three fields are present. -/
def bobPartialStore : Store :=
  [(pubKeyName ssmRoot ("bob"), "B"), (createdAtName ssmRoot ("bob"), "T"),
   (statusName ssmRoot ("bob"), "active")]

/-- Store with one manually provisioned per-client api-key parameter
(no such parameter is ever written by the source itself). -/
def carolApiKeyStore : Store :=
  [(userParamName ssmRoot ("carol") ("api-key"), "sekrit")]

/-- Environment with a DNS name configured and no working discovery. -/
def envBasic : NetEnv :=
  { dnsName := some ("vpn.example.com"), wgListenPort := "51820",
    vpnPublicIp := none, svc := fun _ => SvcResult.fail, ec2Meta := none,
    md5head := fun _ => 0 }

/-- Service map where the first external service answers. -/
def svcFirstOk : String → SvcResult :=
  fun u =>
    if u == "https://api.ipify.org?format=json" then SvcResult.okIp ("5.6.7.8")
    else SvcResult.fail

/-- Environment with both the VPN_PUBLIC_IP override set and a working
first external service. -/
def envOverrideAndService : NetEnv :=
  { dnsName := none, wgListenPort := "51820", vpnPublicIp := some ("1.2.3.4"),
    svc := svcFirstOk, ec2Meta := none, md5head := fun _ => 0 }

/-- Environment with only the VPN_PUBLIC_IP override set: every external
service and the metadata probe fail. -/
def envOnlyOverride : NetEnv :=
  { dnsName := none, wgListenPort := "51820", vpnPublicIp := some ("1.2.3.4"),
    svc := fun _ => SvcResult.fail, ec2Meta := none, md5head := fun _ => 0 }

/-! Store lemmas. -/

theorem append_left_cancel (A f1 f2 : String) (h : A ++ f1 = A ++ f2) : f1 = f2 := by
  have h2 : A.data ++ f1.data = A.data ++ f2.data := by
    rw [← String.data_append, ← String.data_append, h]
  have h3 : f1.data = f2.data := List.append_cancel_left h2
  cases f1
  cases f2
  exact congrArg String.mk h3

theorem userParamName_field_inj (pre cid f1 f2 : String)
    (h : userParamName pre cid f1 = userParamName pre cid f2) : f1 = f2 :=
  append_left_cancel (pre ++ "/users/" ++ cid ++ "/") f1 f2 h

theorem userParamName_ne (pre cid f1 f2 : String) (h : f1 ≠ f2) :
    userParamName pre cid f1 ≠ userParamName pre cid f2 :=
  fun he => h (userParamName_field_inj pre cid f1 f2 he)

theorem priv_ne_pub (pre cid : String) : privKeyName pre cid ≠ pubKeyName pre cid :=
  userParamName_ne pre cid ("wg-private-key") ("wg-public-key") (by decide)

theorem priv_ne_created (pre cid : String) : privKeyName pre cid ≠ createdAtName pre cid :=
  userParamName_ne pre cid ("wg-private-key") ("created-at") (by decide)

theorem priv_ne_status (pre cid : String) : privKeyName pre cid ≠ statusName pre cid :=
  userParamName_ne pre cid ("wg-private-key") ("status") (by decide)

theorem pub_ne_created (pre cid : String) : pubKeyName pre cid ≠ createdAtName pre cid :=
  userParamName_ne pre cid ("wg-public-key") ("created-at") (by decide)

theorem pub_ne_status (pre cid : String) : pubKeyName pre cid ≠ statusName pre cid :=
  userParamName_ne pre cid ("wg-public-key") ("status") (by decide)

theorem created_ne_status (pre cid : String) : createdAtName pre cid ≠ statusName pre cid :=
  userParamName_ne pre cid ("created-at") ("status") (by decide)

theorem find?_filter_ne (s : Store) (n m : String) (h : m ≠ n) :
    List.find? (fun p => p.1 == m) (List.filter (fun p => p.1 != n) s)
      = List.find? (fun p => p.1 == m) s := by
  induction s with
  | nil => rfl
  | cons a t ih =>
    simp only [List.filter_cons]
    by_cases ha : a.1 = n
    · have hcond : (a.1 != n) = false := by simp [ha]
      rw [hcond]
      simp only [Bool.false_eq_true, if_false]
      rw [ih]
      have hne : ¬ ((fun p => p.1 == m) a = true) := by
        simp only [beq_iff_eq, ha]
        exact fun hc => h hc.symm
      rw [List.find?_cons_of_neg (p := fun p => p.1 == m) (a := a) t hne]
    · have hcond : (a.1 != n) = true := by simp [ha]
      rw [hcond]
      simp only [if_true]
      by_cases ham : a.1 = m
      · rw [List.find?_cons_of_pos (p := fun p => p.1 == m) (a := a)
            (List.filter (fun p => p.1 != n) t) (by simp [ham]),
          List.find?_cons_of_pos (p := fun p => p.1 == m) (a := a) t (by simp [ham])]
      · rw [List.find?_cons_of_neg (p := fun p => p.1 == m) (a := a)
            (List.filter (fun p => p.1 != n) t) (by simp [ham]),
          List.find?_cons_of_neg (p := fun p => p.1 == m) (a := a) t (by simp [ham])]
        exact ih

theorem find?_filter_self (s : Store) (n : String) :
    List.find? (fun p => p.1 == n) (List.filter (fun p => p.1 != n) s) = none := by
  induction s with
  | nil => rfl
  | cons a t ih =>
    simp only [List.filter_cons]
    by_cases ha : a.1 = n
    · have hcond : (a.1 != n) = false := by simp [ha]
      rw [hcond]
      simp only [Bool.false_eq_true, if_false]
      exact ih
    · have hcond : (a.1 != n) = true := by simp [ha]
      rw [hcond]
      simp only [if_true]
      rw [List.find?_cons_of_neg (p := fun p => p.1 == n) (a := a)
        (List.filter (fun p => p.1 != n) t) (by simp [ha])]
      exact ih

theorem getParam_putParam (s : Store) (n v m : String) :
    getParam (putParam s n v) m = if m = n then some v else getParam s m := by
  unfold getParam putParam
  by_cases h : m = n
  · cases h
    rw [List.find?_cons_of_pos (p := fun p => p.1 == n) (a := (n, v))
      (List.filter (fun p => p.1 != n) s) (by simp)]
    simp
  · rw [List.find?_cons_of_neg (p := fun p => p.1 == m) (a := (n, v))
      (List.filter (fun p => p.1 != n) s)
      (by simp only [beq_iff_eq]; exact fun hc => h hc.symm)]
    rw [find?_filter_ne s n m h, if_neg h]

theorem getParam_filterOut_self (s : Store) (n : String) :
    getParam (List.filter (fun p => p.1 != n) s) n = none := by
  unfold getParam
  rw [find?_filter_self]
  rfl

theorem getParam_filterOut_ne (s : Store) (n m : String) (h : m ≠ n) :
    getParam (List.filter (fun p => p.1 != n) s) m = getParam s m := by
  unfold getParam
  rw [find?_filter_ne s n m h]

theorem delParamRun_none_iff (s : Store) (n : String) :
    delParamRun s n = none ↔ getParam s n = none := by
  unfold delParamRun
  cases h : getParam s n <;> simp

theorem delParamRun_some_spec (s : Store) (n : String) (s2 : Store)
    (h : delParamRun s n = some s2) :
    getParam s2 n = none ∧ ∀ m, m ≠ n → getParam s2 m = getParam s m := by
  unfold delParamRun at h
  cases hg : getParam s n with
  | none => rw [hg] at h; cases h
  | some v =>
    rw [hg] at h
    have hs2 : s2 = List.filter (fun p => p.1 != n) s := (Option.some_inj.mp h).symm
    subst hs2
    exact ⟨getParam_filterOut_self s n, fun m hm => getParam_filterOut_ne s n m hm⟩

theorem load_after_delete (pre cid : String) (s : Store) :
    load_user_wireguard_keys pre cid (delete_user_wireguard_keys pre cid s) = none := by
  have key : ∀ t : Store, getParam t (privKeyName pre cid) = none →
      load_user_wireguard_keys pre cid t = none := by
    intro t ht
    unfold load_user_wireguard_keys
    rw [ht]
  unfold delete_user_wireguard_keys
  split
  next h1 => exact key s ((delParamRun_none_iff s _).mp h1)
  next s1 h1 =>
    obtain ⟨hp1, _⟩ := delParamRun_some_spec s _ s1 h1
    split
    next h2 => exact key s1 hp1
    next s2 h2 =>
      obtain ⟨_, hkeep2⟩ := delParamRun_some_spec s1 _ s2 h2
      have hp2 : getParam s2 (privKeyName pre cid) = none := by
        rw [hkeep2 _ (priv_ne_pub pre cid)]
        exact hp1
      split
      next h3 => exact key s2 hp2
      next s3 h3 =>
        obtain ⟨_, hkeep3⟩ := delParamRun_some_spec s2 _ s3 h3
        have hp3 : getParam s3 (privKeyName pre cid) = none := by
          rw [hkeep3 _ (priv_ne_created pre cid)]
          exact hp2
        split
        next h4 => exact key s3 hp3
        next s4 h4 =>
          obtain ⟨_, hkeep4⟩ := delParamRun_some_spec s3 _ s4 h4
          have hp4 : getParam s4 (privKeyName pre cid) = none := by
            rw [hkeep4 _ (priv_ne_status pre cid)]
            exact hp3
          exact key s4 hp4

theorem getParam_save_priv (pre cid priv pub now : String) (s : Store) :
    getParam (save_user_wireguard_keys pre cid priv pub now s) (privKeyName pre cid)
      = some priv := by
  unfold save_user_wireguard_keys
  rw [getParam_putParam, if_neg (priv_ne_status pre cid),
    getParam_putParam, if_neg (priv_ne_created pre cid),
    getParam_putParam, if_neg (priv_ne_pub pre cid),
    getParam_putParam, if_pos rfl]

theorem getParam_save_pub (pre cid priv pub now : String) (s : Store) :
    getParam (save_user_wireguard_keys pre cid priv pub now s) (pubKeyName pre cid)
      = some pub := by
  unfold save_user_wireguard_keys
  rw [getParam_putParam, if_neg (pub_ne_status pre cid),
    getParam_putParam, if_neg (pub_ne_created pre cid),
    getParam_putParam, if_pos rfl]

theorem getParam_save_created (pre cid priv pub now : String) (s : Store) :
    getParam (save_user_wireguard_keys pre cid priv pub now s) (createdAtName pre cid)
      = some now := by
  unfold save_user_wireguard_keys
  rw [getParam_putParam, if_neg (created_ne_status pre cid),
    getParam_putParam, if_pos rfl]

theorem getParam_save_status (pre cid priv pub now : String) (s : Store) :
    getParam (save_user_wireguard_keys pre cid priv pub now s) (statusName pre cid)
      = some ("active") := by
  unfold save_user_wireguard_keys
  rw [getParam_putParam, if_pos rfl]

theorem load_after_save (pre cid priv pub now : String) (s : Store) :
    load_user_wireguard_keys pre cid (save_user_wireguard_keys pre cid priv pub now s)
      = some (priv, pub) := by
  unfold load_user_wireguard_keys
  rw [getParam_save_priv, getParam_save_pub]

theorem create_eq_of_absent (pre : String) (e : NetEnv) (gen : KeygenResult)
    (tSave tResp cid : String) (s : Store)
    (h : load_user_wireguard_keys pre cid s = none) :
    create_user_wireguard_config pre e gen tSave tResp cid s
      = (save_user_wireguard_keys pre cid (generate_wireguard_keys gen).1
          (generate_wireguard_keys gen).2 tSave s,
         .created
          { private_key := (generate_wireguard_keys gen).1,
            public_key := (generate_wireguard_keys gen).2,
            client_id := cid, created_at := tResp, status := "active",
            client_config := generate_wireguard_client_config pre
              (save_user_wireguard_keys pre cid (generate_wireguard_keys gen).1
                (generate_wireguard_keys gen).2 tSave s) e cid
              (generate_wireguard_keys gen).1 (generate_wireguard_keys gen).2 }) := by
  unfold create_user_wireguard_config
  rw [h]

theorem create_eq_of_present (pre : String) (e : NetEnv) (gen : KeygenResult)
    (tSave tResp cid : String) (s : Store) (pk : String × String)
    (h : load_user_wireguard_keys pre cid s = some pk) :
    create_user_wireguard_config pre e gen tSave tResp cid s = (s, .alreadyExists) := by
  unfold create_user_wireguard_config
  rw [h]

/-! Claim theorems. -/

/-- Claim C7: for every client id, the ip_suffix computation (wide hash of
the client id reduced modulo 254 plus 2) is deterministic — computing it
twice from the same id yields the same suffix — and the suffix always lies
in the range [2, 255]. -/
theorem C7_assign_deterministic_and_in_range (md5h : String → Nat) (cid : String) :
    ip_suffix (md5h cid) = ip_suffix (md5h cid)
      ∧ 2 ≤ ip_suffix (md5h cid) ∧ ip_suffix (md5h cid) ≤ 255 := by
  refine ⟨rfl, ?_, ?_⟩
  · exact Nat.le_add_left 2 _
  · unfold ip_suffix
    have h : md5h cid % 254 < 254 := Nat.mod_lt _ (by omega)
    omega

/-- Claim C6: when the master key is configured, verify_master_api_key
accepts exactly the configured secret and rejects every other string with
401 (unauthorized); when the master key parameter is absent, it signals
the notConfigured outcome, which is distinct from unauthorized. -/
theorem C6_verify_master_exact_match (pre : String) (s : Store) (cred : String) :
    (∀ mk, getParam s (masterKeyName pre) = some mk →
      ((verify_master_api_key pre s cred = .ok cred ↔ cred = mk)
        ∧ (cred ≠ mk → verify_master_api_key pre s cred = .unauthorized)))
    ∧ (getParam s (masterKeyName pre) = none →
        verify_master_api_key pre s cred = .notConfigured)
    ∧ (AuthResult.notConfigured ≠ AuthResult.unauthorized) := by
  refine ⟨?_, ?_, by simp⟩
  · intro mk hmk
    unfold verify_master_api_key
    rw [hmk]
    constructor
    · constructor
      · intro h
        by_cases hc : cred = mk
        · exact hc
        · simp [hc] at h
      · intro h
        subst h
        simp
    · intro hne
      simp [hne]
  · intro h
    unfold verify_master_api_key
    rw [h]

/-- Claim C6 witness: the configured master secret is accepted; the empty
string and the stored public key of an existing client are rejected with
unauthorized; with no master key configured the result is
notConfigured. -/
theorem C6_witness :
    verify_master_api_key ssmRoot aliceMasterStore ("master-secret") = .ok ("master-secret")
    ∧ verify_master_api_key ssmRoot aliceMasterStore ("") = .unauthorized
    ∧ verify_master_api_key ssmRoot aliceMasterStore ("PUB") = .unauthorized
    ∧ verify_master_api_key ssmRoot ([] : Store) ("master-secret") = .notConfigured := by
  refine ⟨?_, ?_, ?_, ?_⟩
  · exact ((C6_verify_master_exact_match ssmRoot aliceMasterStore ("master-secret")).1
      ("master-secret") (by decide)).1.mpr rfl
  · exact ((C6_verify_master_exact_match ssmRoot aliceMasterStore ("")).1
      ("master-secret") (by decide)).2 (by decide)
  · exact ((C6_verify_master_exact_match ssmRoot aliceMasterStore ("PUB")).1
      ("master-secret") (by decide)).2 (by decide)
  · exact (C6_verify_master_exact_match ssmRoot ([] : Store) ("master-secret")).2.1 (by decide)

/-- Claim C4 counterexample: for the record of client bob whose private
key is already absent, a completed Delete leaves the status field in the
store, so it is false that after any completed Delete none of the four
keys exist. -/
theorem C4_counterexample :
    getParam bobPartialStore (privKeyName ssmRoot ("bob")) = none
    ∧ getParam (delete_user_wireguard_keys ssmRoot ("bob") bobPartialStore)
        (statusName ssmRoot ("bob")) = some ("active") := by
  decide

/-- Claim C4 (amended): all four fields are written together on create
(after any completed Create all four keys exist), and after any completed
Delete the record is never visible as existing — the private/public key
pair never survives — though fields later in the fixed deletion order than
an already-absent field may persist. -/
theorem C4_amended_write_together_delete_invisible
    (pre cid priv pub now : String) (s : Store) :
    (getParam (save_user_wireguard_keys pre cid priv pub now s)
        (privKeyName pre cid) = some priv
      ∧ getParam (save_user_wireguard_keys pre cid priv pub now s)
          (pubKeyName pre cid) = some pub
      ∧ getParam (save_user_wireguard_keys pre cid priv pub now s)
          (createdAtName pre cid) = some now
      ∧ getParam (save_user_wireguard_keys pre cid priv pub now s)
          (statusName pre cid) = some ("active"))
    ∧ load_user_wireguard_keys pre cid (delete_user_wireguard_keys pre cid s) = none :=
  ⟨⟨getParam_save_priv pre cid priv pub now s,
    getParam_save_pub pre cid priv pub now s,
    getParam_save_created pre cid priv pub now s,
    getParam_save_status pre cid priv pub now s⟩,
   load_after_delete pre cid s⟩

/-- Claim C9: Delete followed by Get yields NotFound for every starting
store, and Delete on an id whose record is absent (including when only
some of the four fields are absent, as long as the key pair is not fully
present) returns the same NotFound outcome as on a never-existing id,
changing nothing. -/
theorem C9_delete_then_get_notFound (pre cid : String) (e : NetEnv) (d : String) (s : Store) :
    get_user pre e d cid ((delete_user pre cid s).1) = .notFound
    ∧ (load_user_wireguard_keys pre cid s = none →
        delete_user pre cid s = (s, .notFound)) := by
  have hload : load_user_wireguard_keys pre cid ((delete_user pre cid s).1) = none := by
    unfold delete_user
    cases h : load_user_wireguard_keys pre cid s with
    | none => exact h
    | some pk => exact load_after_delete pre cid s
  constructor
  · unfold get_user get_user_info
    rw [hload]
  · intro h
    unfold delete_user
    rw [h]

/-- Claim C9 witness: on the partial record of bob (private key absent)
and on the empty store, Delete yields the same NotFound outcome and
leaves the store unchanged; Get after Delete on the alice store yields
NotFound. -/
theorem C9_witness :
    load_user_wireguard_keys ssmRoot ("bob") bobPartialStore = none
    ∧ delete_user ssmRoot ("bob") bobPartialStore = (bobPartialStore, .notFound)
    ∧ delete_user ssmRoot ("bob") ([] : Store) = (([] : Store), .notFound)
    ∧ get_user ssmRoot envBasic ("NOW") ("alice")
        ((delete_user ssmRoot ("alice") aliceStore).1) = .notFound := by
  refine ⟨by decide, ?_, ?_, ?_⟩
  · exact (C9_delete_then_get_notFound ssmRoot ("bob") envBasic ("NOW") bobPartialStore).2
      (by decide)
  · exact (C9_delete_then_get_notFound ssmRoot ("bob") envBasic ("NOW") ([] : Store)).2
      (by decide)
  · exact (C9_delete_then_get_notFound ssmRoot ("alice") envBasic ("NOW") aliceStore).1

/-- Claim C5: when a client id is absent, Create succeeds, and an
immediately following second Create for the same id yields AlreadyExists
while the store after both calls equals the store after the first call
alone (the failed second call writes nothing, whatever generator outcome
and clock reads it sees). -/
theorem C5_second_create_alreadyExists (pre : String) (e e2 : NetEnv)
    (gen gen2 : KeygenResult) (t1 t2 t3 t4 cid : String) (s : Store)
    (h : load_user_wireguard_keys pre cid s = none) :
    (createdRespOf (create_user_wireguard_config pre e gen t1 t2 cid s).2).isSome = true
    ∧ (create_user_wireguard_config pre e2 gen2 t3 t4 cid
        ((create_user_wireguard_config pre e gen t1 t2 cid s).1)).2 = .alreadyExists
    ∧ (create_user_wireguard_config pre e2 gen2 t3 t4 cid
        ((create_user_wireguard_config pre e gen t1 t2 cid s).1)).1
      = (create_user_wireguard_config pre e gen t1 t2 cid s).1 := by
  have h1 := create_eq_of_absent pre e gen t1 t2 cid s h
  have hl : load_user_wireguard_keys pre cid
      ((create_user_wireguard_config pre e gen t1 t2 cid s).1)
      = some ((generate_wireguard_keys gen).1, (generate_wireguard_keys gen).2) := by
    rw [h1]
    exact load_after_save pre cid _ _ t1 s
  have h2 := create_eq_of_present pre e2 gen2 t3 t4 cid _ _ hl
  refine ⟨?_, ?_, ?_⟩
  · rw [h1]
    rfl
  · rw [h2]
  · rw [h2]

/-- Claim C5 witness: creating alice on the empty store and creating alice
again yields AlreadyExists on the second call with the store unchanged. -/
theorem C5_witness :
    (createdRespOf (create_user_wireguard_config ssmRoot envBasic (.success ("P") ("B"))
        ("T1") ("T2") ("alice") ([] : Store)).2).isSome = true
    ∧ (create_user_wireguard_config ssmRoot envBasic (.success ("P2") ("B2"))
        ("T3") ("T4") ("alice")
        ((create_user_wireguard_config ssmRoot envBasic (.success ("P") ("B"))
          ("T1") ("T2") ("alice") ([] : Store)).1)).2 = .alreadyExists
    ∧ (create_user_wireguard_config ssmRoot envBasic (.success ("P2") ("B2"))
        ("T3") ("T4") ("alice")
        ((create_user_wireguard_config ssmRoot envBasic (.success ("P") ("B"))
          ("T1") ("T2") ("alice") ([] : Store)).1)).1
      = (create_user_wireguard_config ssmRoot envBasic (.success ("P") ("B"))
          ("T1") ("T2") ("alice") ([] : Store)).1 :=
  C5_second_create_alreadyExists ssmRoot envBasic envBasic (.success ("P") ("B"))
    (.success ("P2") ("B2")) ("T1") ("T2") ("T3") ("T4") ("alice") ([] : Store) (by decide)

/-- Claim C10: for a successful Create, the created-at value persisted in
the store is the clock read made inside the save (tSave), while the
created_at returned in the response is the separate clock read made when
building the response (tResp); the two reads are independent inputs, so
the returned value need not equal the stored one. -/
theorem C10_response_clock_independent (pre : String) (e : NetEnv) (gen : KeygenResult)
    (tSave tResp cid : String) (s : Store)
    (h : load_user_wireguard_keys pre cid s = none) :
    getParam ((create_user_wireguard_config pre e gen tSave tResp cid s).1)
        (createdAtName pre cid) = some tSave
    ∧ Option.map (fun r => r.created_at)
        (createdRespOf (create_user_wireguard_config pre e gen tSave tResp cid s).2)
      = some tResp := by
  have h1 := create_eq_of_absent pre e gen tSave tResp cid s h
  constructor
  · rw [h1]
    exact getParam_save_created pre cid _ _ tSave s
  · rw [h1]
    rfl

/-- Claim C10 witness: with distinct clock reads T-SAVE and T-RESP, the
stored created-at is T-SAVE while the response carries T-RESP. -/
theorem C10_witness :
    getParam ((create_user_wireguard_config ssmRoot envBasic (.success ("P") ("B"))
        ("T-SAVE") ("T-RESP") ("alice") ([] : Store)).1)
        (createdAtName ssmRoot ("alice")) = some ("T-SAVE")
    ∧ Option.map (fun r => r.created_at)
        (createdRespOf (create_user_wireguard_config ssmRoot envBasic (.success ("P") ("B"))
          ("T-SAVE") ("T-RESP") ("alice") ([] : Store)).2)
      = some ("T-RESP")
    ∧ ("T-SAVE" : String) ≠ "T-RESP" :=
  ⟨(C10_response_clock_independent ssmRoot envBasic (.success ("P") ("B"))
      ("T-SAVE") ("T-RESP") ("alice") ([] : Store) (by decide)).1,
   (C10_response_clock_independent ssmRoot envBasic (.success ("P") ("B"))
      ("T-SAVE") ("T-RESP") ("alice") ([] : Store) (by decide)).2,
   by decide⟩

/-- Claim C2 (code bug): when the keypair generator fails, Create does not
surface any error — it persists the two literal failure sentinels into
the store as the stored private and public keys and returns a successful
response carrying them. -/
theorem C2_sentinels_persisted_on_keygen_failure (pre : String) (e : NetEnv)
    (tSave tResp cid : String) (s : Store)
    (h : load_user_wireguard_keys pre cid s = none) :
    getParam ((create_user_wireguard_config pre e .failure tSave tResp cid s).1)
        (privKeyName pre cid) = some failedPrivate
    ∧ getParam ((create_user_wireguard_config pre e .failure tSave tResp cid s).1)
        (pubKeyName pre cid) = some failedPublic
    ∧ Option.map (fun r => r.private_key)
        (createdRespOf (create_user_wireguard_config pre e .failure tSave tResp cid s).2)
      = some failedPrivate
    ∧ Option.map (fun r => r.public_key)
        (createdRespOf (create_user_wireguard_config pre e .failure tSave tResp cid s).2)
      = some failedPublic := by
  have h1 := create_eq_of_absent pre e .failure tSave tResp cid s h
  refine ⟨?_, ?_, ?_, ?_⟩
  · rw [h1]
    exact getParam_save_priv pre cid _ _ tSave s
  · rw [h1]
    exact getParam_save_pub pre cid _ _ tSave s
  · rw [h1]
    rfl
  · rw [h1]
    rfl

/-- Claim C2 witness: creating alice on the empty store with a failing
generator stores both sentinels and reports success. -/
theorem C2_witness :
    getParam ((create_user_wireguard_config ssmRoot envBasic .failure
        ("T1") ("T2") ("alice") ([] : Store)).1)
        (privKeyName ssmRoot ("alice")) = some failedPrivate
    ∧ getParam ((create_user_wireguard_config ssmRoot envBasic .failure
        ("T1") ("T2") ("alice") ([] : Store)).1)
        (pubKeyName ssmRoot ("alice")) = some failedPublic
    ∧ Option.map (fun r => r.private_key)
        (createdRespOf (create_user_wireguard_config ssmRoot envBasic .failure
          ("T1") ("T2") ("alice") ([] : Store)).2)
      = some failedPrivate
    ∧ Option.map (fun r => r.public_key)
        (createdRespOf (create_user_wireguard_config ssmRoot envBasic .failure
          ("T1") ("T2") ("alice") ([] : Store)).2)
      = some failedPublic :=
  C2_sentinels_persisted_on_keygen_failure ssmRoot envBasic ("T1") ("T2") ("alice")
    ([] : Store) (by decide)

/-- Claim C1 counterexample: with client alice created through the store
writes of the source (and a master key configured), presenting the
stored public key of alice — a credential that does not match the master key — is
rejected with 401, whereas the claim says presenting the stored public
key of any existing client is accepted. -/
theorem C1_counterexample :
    load_user_wireguard_keys ssmRoot ("alice") aliceMasterStore = some (("PRIV", "PUB"))
    ∧ getParam aliceMasterStore (masterKeyName ssmRoot) = some ("master-secret")
    ∧ verify_api_key ssmRoot aliceMasterStore ("PUB") = .unauthorized := by
  decide

/-- Helper: when the master comparison misses, verify_api_key reduces to
the scan over the user-namespace parameter names ending in /api-key. -/
theorem verify_api_key_of_no_master_match (pre : String) (s : Store) (cred : String)
    (hm : (match getParam s (masterKeyName pre) with
      | some mk => cred == mk
      | none => false) = false) :
    verify_api_key pre s cred
      = (if List.any (userParamNames pre s)
            (fun n => strEndsWith n ("/api-key") && (getParam s n == some cred)) then
          AuthResult.ok cred
        else .unauthorized) := by
  unfold verify_api_key
  rw [hm]
  simp

/-- Claim C1 (amended): for a presented credential that does not match the
master key, verify_api_key enumerates the parameters stored under the
users namespace but compares the credential only against those whose NAME
ends in `/api-key`; it accepts exactly when one of them stores the
credential, and yields 401 after exhausting them.  Since the create path
writes per-client material only under wg-private-key, wg-public-key,
created-at and status, no api-key parameter ever exists for clients
created by this system, so presenting a stored public key is rejected
(see the counterexample). -/
theorem C1_amended_scan_only_api_key_params (pre : String) (s : Store) (cred : String)
    (hm : ∀ mk, getParam s (masterKeyName pre) = some mk → cred ≠ mk) :
    (verify_api_key pre s cred = .ok cred
      ↔ ∃ n ∈ userParamNames pre s,
          strEndsWith n ("/api-key") = true ∧ getParam s n = some cred)
    ∧ ((∀ n ∈ userParamNames pre s, strEndsWith n ("/api-key") = false) →
        verify_api_key pre s cred = .unauthorized) := by
  have hmaster : (match getParam s (masterKeyName pre) with
      | some mk => cred == mk
      | none => false) = false := by
    cases hg : getParam s (masterKeyName pre) with
    | none => rfl
    | some mk =>
      have := hm mk hg
      simpa using this
  have heq := verify_api_key_of_no_master_match pre s cred hmaster
  constructor
  · rw [heq]
    by_cases hany : List.any (userParamNames pre s)
        (fun n => strEndsWith n ("/api-key") && (getParam s n == some cred)) = true
    · rw [if_pos hany]
      constructor
      · intro _
        obtain ⟨n, hn, hp⟩ := List.any_eq_true.mp hany
        have hsplit := Bool.and_eq_true_iff.mp hp
        exact ⟨n, hn, hsplit.1, by simpa using hsplit.2⟩
      · intro _
        rfl
    · rw [if_neg hany]
      constructor
      · intro hbad
        exact absurd hbad (by simp)
      · rintro ⟨n, hn, he, hv⟩
        exact absurd (List.any_eq_true.mpr
          ⟨n, hn, Bool.and_eq_true_iff.mpr ⟨he, by simpa using hv⟩⟩) hany
  · intro hall
    rw [heq, if_neg]
    intro hany
    obtain ⟨n, hn, hp⟩ := List.any_eq_true.mp hany
    have := (Bool.and_eq_true_iff.mp hp).1
    rw [hall n hn] at this
    cases this

/-- Claim C1 amended witness: a manually provisioned api-key parameter is
accepted on the scan; on the alice store, where no parameter name ends in
/api-key, any non-master credential is rejected with 401. -/
theorem C1_amended_witness :
    verify_api_key ssmRoot carolApiKeyStore ("sekrit") = .ok ("sekrit")
    ∧ verify_api_key ssmRoot aliceMasterStore ("PRIV") = .unauthorized := by
  constructor
  · exact (C1_amended_scan_only_api_key_params ssmRoot carolApiKeyStore ("sekrit")
      (by
        intro mk hmk
        rw [(by decide : getParam carolApiKeyStore (masterKeyName ssmRoot)
          = (none : Option String))] at hmk
        cases hmk)).1.mpr
      ⟨userParamName ssmRoot ("carol") ("api-key"), by decide, by decide, by decide⟩
  · exact (C1_amended_scan_only_api_key_params ssmRoot aliceMasterStore ("PRIV")
      (by
        intro mk hmk
        rw [(by decide : getParam aliceMasterStore (masterKeyName ssmRoot)
          = some ("master-secret"))] at hmk
        cases hmk
        decide)).2 (by decide)

/-- Claim C3 (code bug): on the store holding the four parameters of
client alice under the default root, list_users returns the literal
segment "users" instead of the client id: the code indexes segment 2 of
the split parameter name, but with an absolute root the leading slash
makes segment 0 empty, so segment 2 is always the fixed literal "users"
and the client id (segment 3) is never returned. -/
theorem C3_list_users_wrong_segment :
    list_users ssmRoot aliceStore = ["users"]
    ∧ ¬ (("alice" : String) ∈ list_users ssmRoot aliceStore) := by
  decide

/-- Claim C8 counterexample: with the VPN_PUBLIC_IP override set to
1.2.3.4 and the first external service answering 5.6.7.8, get_public_ip
returns the service answer, not the override — the override is consulted
only after the services — whereas the claim says the override value is
returned first without consulting the services. -/
theorem C8_counterexample :
    envOverrideAndService.vpnPublicIp = some ("1.2.3.4")
    ∧ get_public_ip envOverrideAndService = "5.6.7.8"
    ∧ ("5.6.7.8" : String) ≠ "1.2.3.4" := by
  decide

/-- Claim C8 (amended): with no DNS name, get_public_ip attempts discovery
in the fixed fallback order: (1) the external IP-lookup services tried in
order until one yields a parseable address, (2) the local EC2 metadata
probe, (3) the VPN_PUBLIC_IP environment override, and (4) the empty
string only when all of these fail; the override is returned only when
every service and the metadata probe fail. -/
theorem C8_amended_fallback_order (e : NetEnv) :
    (∀ ip, List.findSome? (fun u => svcExtract (e.svc u)) ip_services = some ip →
      get_public_ip e = ip)
    ∧ (∀ body, List.findSome? (fun u => svcExtract (e.svc u)) ip_services = none →
        e.ec2Meta = some body → get_public_ip e = strTrim body)
    ∧ (∀ ip, List.findSome? (fun u => svcExtract (e.svc u)) ip_services = none →
        e.ec2Meta = none → e.vpnPublicIp = some ip → ip ≠ "" →
        get_public_ip e = ip)
    ∧ (List.findSome? (fun u => svcExtract (e.svc u)) ip_services = none →
        e.ec2Meta = none → e.vpnPublicIp = none →
        get_public_ip e = "") := by
  refine ⟨?_, ?_, ?_, ?_⟩
  · intro ip h
    unfold get_public_ip
    rw [h]
  · intro body h1 h2
    unfold get_public_ip
    rw [h1, h2]
  · intro ip h1 h2 h3 h4
    unfold get_public_ip
    rw [h1, h2, h3]
    simp [h4]
  · intro h1 h2 h3
    unfold get_public_ip
    rw [h1, h2, h3]

/-- Claim C8 amended witness: when every service fails and there is no
metadata, the override value is returned; when the first service answers,
its answer wins over the override. -/
theorem C8_amended_witness :
    get_public_ip envOnlyOverride = "1.2.3.4"
    ∧ get_public_ip envOverrideAndService = "5.6.7.8" := by
  constructor
  · exact (C8_amended_fallback_order envOnlyOverride).2.2.1 ("1.2.3.4")
      (by decide) rfl rfl (by decide)
  · exact (C8_amended_fallback_order envOverrideAndService).1 ("5.6.7.8") (by decide)

end EphemVpn
